import Mathlib

/-
Verification development for the CloudExport render-job dispatch service.

This file gives a shallow embedding, in Lean 4, of the parts of the code
base that the specification's claims are about:

  * the credit ledger (src/cloudexport/credits.py, src/cloudexport/models.py),
  * the cost estimator (src/cloudexport/pricing.py, src/cloudexport/compatibility.py),
  * the worker loop (src/worker/worker.py),
  * the job controller's cancel / result / webhook handlers (src/backend/app/main.py).

Modelling conventions:
  * Python floats are modelled as rationals (ℚ); the claims under study are
    algebraic, not about floating-point rounding.
  * Database tables are lists of rows; `db.add` + `db.commit` of a new row is
    list append; in-place mutation of a fetched row is replacement of the
    first matching list element (SQLAlchemy's `one_or_none` on the queried
    filters).
  * Wall-clock time, subprocess execution and network I/O are replaced by
    explicit parameters (measured minutes, the outcome of the render
    subprocess, the list of parsed PROGRESS lines).
  * Timestamp columns (`created_at`, `started_at`, `finished_at`) and the
    scratch-directory handling are omitted: no claim mentions them.
-/

namespace CloudExport

/-! ## Ledger data model (src/cloudexport/models.py, class CreditLedger) -/

/-- Optional JSON `details` blob on a ledger entry.  The code only ever
stores a reason/source string and, for an insufficient-funds settlement, a
numeric shortfall; we model exactly that shape. -/
structure LedgerDetails where
  reason : String
  shortfall : Option ℚ := none
deriving Repr, DecidableEq

/-- One row of the `credit_ledger` table (src/cloudexport/models.py lines
98-117).  `entry_type ∈ {PURCHASE, ADJUSTMENT, RESERVE, REFUND, SETTLEMENT}`,
`status ∈ {posted, reserved, voided}`. -/
structure LedgerEntry where
  user_id : String
  entry_type : String
  status : String
  amount_usd : ℚ
  currency : String := "USD"
  job_id : Option String := none
  external_id : Option String := none
  details : Option LedgerDetails := none
deriving Repr, DecidableEq

/-- The `credit_ledger` table: a list of rows in insertion order. -/
abbrev Ledger := List LedgerEntry

/-- Unique constraints declared on `credit_ledger` in models.py lines
100-103: `external_id` alone and the pair `(job_id, entry_type)`. -/
def credit_ledger_unique_constraints : List (List String) :=
  [["external_id"], ["job_id", "entry_type"]]

/-- Unique constraints declared on `cache_entries` in models.py lines
87-95: the class body declares no `__table_args__`, so the only uniqueness
is the `id` primary key — there is none on `(manifest_hash, preset)`. -/
def cache_entries_unique_constraints : List (List String) := []

/-! ## Balance aggregation (src/cloudexport/credits.py) -/

structure CreditBalance where
  posted_usd : ℚ
  reserved_usd : ℚ
  available_usd : ℚ
deriving Repr, DecidableEq

/-- Sum of `amount_usd` over this user's entries with the given status
(the two aggregate queries of `get_balances`, credits.py lines 18-26). -/
def statusSum (L : Ledger) (user_id status : String) : ℚ :=
  ((L.filter (fun e => e.user_id == user_id && e.status == status)).map
    (fun e => e.amount_usd)).sum

/-- Embeds `get_balances` (credits.py lines 17-29): posted and reserved are
the raw signed sums over the respective statuses, and
`available = posted + reserved`.  Note the code takes no absolute value. -/
def get_balances (L : Ledger) (user_id : String) : CreditBalance :=
  let posted := statusSum L user_id "posted"
  let reserved := statusSum L user_id "reserved"
  { posted_usd := posted, reserved_usd := reserved, available_usd := posted + reserved }

/-- The filter used by `reserve_credits` to look for an existing RESERVE
entry (credits.py lines 36-40). -/
def isReserveOfUser (user_id job_id : String) (e : LedgerEntry) : Bool :=
  e.user_id == user_id && e.job_id == some job_id && e.entry_type == "RESERVE"

/-- The RESERVE entry `reserve_credits` inserts (credits.py lines 49-56). -/
def mkReserveEntry (user_id job_id : String) (amount_usd : ℚ) : LedgerEntry :=
  { user_id := user_id, entry_type := "RESERVE", status := "reserved",
    amount_usd := -amount_usd, currency := "USD", job_id := some job_id }

/-- Embeds `reserve_credits` (credits.py lines 32-59).  Returns the new
ledger, or the message of the raised `ValueError`. -/
def reserve_credits (L : Ledger) (user_id job_id : String) (amount_usd : ℚ) :
    Except String Ledger :=
  if amount_usd ≤ 0 then .error "Reservation amount must be positive"
  else
    match L.find? (isReserveOfUser user_id job_id) with
    | some _ => .ok L
    | none =>
      let balances := get_balances L user_id
      if balances.available_usd < amount_usd then .error "Insufficient credits"
      else .ok (L ++ [mkReserveEntry user_id job_id amount_usd])

/-- Python `min(a, b)` on two numbers. -/
def pymin (a b : ℚ) : ℚ := if a ≤ b then a else b

/-- Python `max(a, b)` on two numbers. -/
def pymax (a b : ℚ) : ℚ := if a ≤ b then b else a

/-- Python `abs(q)`. -/
def pyabs (q : ℚ) : ℚ := if q < 0 then -q else q

/-- Floor of a rational, computed on the numerator/denominator pair. -/
def ratFloor (q : ℚ) : ℤ := Int.fdiv q.num q.den

/-- The filter used by `settle_job_credits` / `void_reservation` to fetch a
job's RESERVE entry (credits.py lines 63-66 and 112-115). -/
def isReserveOf (job_id : String) (e : LedgerEntry) : Bool :=
  e.job_id == some job_id && e.entry_type == "RESERVE"

/-- Replace the first element satisfying `p` (models SQLAlchemy's in-place
mutation of the single row returned by `one_or_none`). -/
def updateFirst (p : LedgerEntry → Bool) (f : LedgerEntry → LedgerEntry) :
    Ledger → Ledger
  | [] => []
  | e :: es => if p e then f e :: es else e :: updateFirst p f es

/-- Python `round(x, 2)`: round to 2 decimal places, ties to even
(CPython's banker's rounding, value-level). -/
def round2 (q : ℚ) : ℚ :=
  let x := q * 100
  let f := ratFloor x
  let r := x - f
  let n : ℤ :=
    if r < 1/2 then f
    else if 1/2 < r then f + 1
    else if f % 2 = 0 then f else f + 1
  (n : ℚ) / 100

/-- Embeds `settle_job_credits` (credits.py lines 62-108).  Finds the job's
RESERVE entry; if absent or not in status `reserved`, no-op.  Otherwise it
mutates the entry in place to `status=posted, amount=-actual_cost` where
`actual_cost = clamp(actual_cost_usd, 0, max_charge)`, attaches an
insufficient-funds detail when the requested cost exceeds `max_charge`, and
appends a REFUND (positive) when `actual_cost < reserved` or a SETTLEMENT
(negative) when `actual_cost > reserved`. -/
def settle_job_credits (L : Ledger) (job_id : String) (actual_cost_usd : ℚ) : Ledger :=
  match L.find? (isReserveOf job_id) with
  | none => L
  | some entry =>
    if entry.status ≠ "reserved" then L
    else
      let reserved := pyabs entry.amount_usd
      let balances := get_balances L entry.user_id
      let max_charge := pymax 0 (balances.available_usd + reserved)
      let actual_cost := pymax 0 (pymin actual_cost_usd max_charge)
      let newDetails : Option LedgerDetails :=
        if max_charge < actual_cost_usd then
          some { reason := "insufficient_funds", shortfall := some (round2 (actual_cost_usd - max_charge)) }
        else entry.details
      let L1 := updateFirst (isReserveOf job_id)
        (fun e => { e with status := "posted", amount_usd := -actual_cost, details := newDetails }) L
      if actual_cost < reserved then
        L1 ++ [{ user_id := entry.user_id, entry_type := "REFUND", status := "posted",
                 amount_usd := reserved - actual_cost, currency := "USD", job_id := some job_id,
                 details := some { reason := "unused_reservation" } }]
      else if reserved < actual_cost then
        L1 ++ [{ user_id := entry.user_id, entry_type := "SETTLEMENT", status := "posted",
                 amount_usd := -(actual_cost - reserved), currency := "USD", job_id := some job_id,
                 details := some { reason := "overage" } }]
      else L1

/-- Embeds `void_reservation` (credits.py lines 111-123). -/
def void_reservation (L : Ledger) (job_id : String) (reason : String) : Ledger :=
  match L.find? (isReserveOf job_id) with
  | none => L
  | some entry =>
    if entry.status ≠ "reserved" then L
    else updateFirst (isReserveOf job_id)
      (fun e => { e with status := "voided", details := some { reason := reason } }) L

/-- Embeds `credit_purchase` (credits.py lines 126-141).  The duplicate
check runs only when `external_id` is truthy, i.e. nonempty. -/
def credit_purchase (L : Ledger) (user_id : String) (amount_usd : ℚ)
    (external_id : String) (source : String) : Ledger :=
  if external_id ≠ "" && L.any (fun e => e.external_id == some external_id) then L
  else L ++ [{ user_id := user_id, entry_type := "PURCHASE", status := "posted",
               amount_usd := amount_usd, currency := "USD",
               external_id := some external_id,
               details := some { reason := source } }]

/-! ## Effect classification (src/cloudexport/compatibility.py) -/

def BLOCKED_EFFECT_PREFIXES : List String :=
  ["Sapphire", "Boris", "RedGiant", "VideoCopilot", "Element3D", "Trapcode"]

def BLOCKED_EFFECTS : List String :=
  ["VC Element", "Trapcode Particular"]

/-- Embeds `classify_effects` (compatibility.py lines 18-35): returns the
(native, third_party) partition, preserving input order. -/
def classify_effects : List String → List String × List String
  | [] => ([], [])
  | effect :: rest =>
    let (native, third_party) := classify_effects rest
    if effect.startsWith "ADBE" then (effect :: native, third_party)
    else if BLOCKED_EFFECTS.contains effect then (native, effect :: third_party)
    else if BLOCKED_EFFECT_PREFIXES.any (fun p => effect.startsWith p) then
      (native, effect :: third_party)
    else if effect.startsWith "PG" || effect.startsWith "CC" then
      (effect :: native, third_party)
    else (native, effect :: third_party)

/-! ## Cost estimator (src/cloudexport/pricing.py) -/

/-- The fields of the manifest JSON object that the estimator reads:
`manifest['composition']['durationSeconds']`, `manifest.get('effects', [])`
and `manifest.get('expressionsCount', 0)`. -/
structure Manifest where
  durationSeconds : ℚ
  effects : List String
  expressionsCount : ℤ
deriving Repr, DecidableEq

/-- The `customOptions` dict: the code reads keys `bitrateMbps` and `codec`. -/
structure CustomOptions where
  bitrateMbps : Option ℚ := none
  codec : Option String := none
deriving Repr, DecidableEq

/-- The configuration knobs read by pricing and the worker
(src/cloudexport/config.py).  The per-GPU-class dicts are association
lists; `dictGet` models Python's `dict.get(key, default)`. -/
structure Settings where
  min_job_cost_usd : ℚ
  storage_rate_per_gb_hour : ℚ
  transfer_rate_per_gb : ℚ
  upload_mbps : ℚ
  gpu_rate_per_minute : List (String × ℚ)
  gpu_speed_factor : List (String × ℚ)
  render_timeout_minutes : ℚ
deriving Repr, DecidableEq

/-- Python `d.get(k, default)` on a string-keyed dict. -/
def dictGet (d : List (String × ℚ)) (k : String) (dflt : ℚ) : ℚ :=
  match d.find? (fun kv => kv.1 == k) with
  | some kv => kv.2
  | none => dflt

/-- Defaults from src/cloudexport/config.py lines 31-41. -/
def defaultSettings : Settings :=
  { min_job_cost_usd := 1
    storage_rate_per_gb_hour := 1/1000
    transfer_rate_per_gb := 5/100
    upload_mbps := 50
    gpu_rate_per_minute := [("rtx4090", 1/2), ("a100", 2)]
    gpu_speed_factor := [("rtx4090", 1), ("a100", 8/5)]
    render_timeout_minutes := 120 }

def PRESET_BITRATES : List (String × ℚ) :=
  [("web", 8), ("social", 12), ("high_quality", 200)]

/-- Embeds `estimate_output_size_gb` (pricing.py lines 14-20). -/
def estimate_output_size_gb (duration_seconds : ℚ) (preset : String)
    (custom_options : Option CustomOptions) : ℚ :=
  let bitrate0 := dictGet PRESET_BITRATES preset 8
  let bitrate :=
    if preset == "custom" then
      match custom_options with
      | some c => c.bitrateMbps.getD bitrate0
      | none => bitrate0
    else bitrate0
  let bits := bitrate * 1000000 * duration_seconds
  let bytes_out := bits / 8
  bytes_out / (1024 ^ 3)

/-- Embeds `compute_complexity` (pricing.py lines 23-38). -/
def compute_complexity (m : Manifest) : ℚ :=
  let third_party := (classify_effects m.effects).2
  let c1 : ℚ := 1
  let c2 := if 10 < m.effects.length then c1 + 1/2 else c1
  let c3 := if 30 < m.effects.length then c2 + 1 else c2
  let c4 := if third_party ≠ [] then c3 + 1/2 else c3
  let c5 := if 50 < m.expressionsCount then c4 + 1/2 else c4
  if 150 < m.expressionsCount then c5 + 1/2 else c5

/-- Embeds `choose_gpu_class` (pricing.py lines 41-47). -/
def choose_gpu_class (m : Manifest) (preset : String) : String :=
  if 600 < m.durationSeconds ∨ 5/2 ≤ compute_complexity m ∨ preset == "high_quality" then "a100"
  else "rtx4090"

/-- Python `int(x)`: truncation toward zero. -/
def pyInt (q : ℚ) : ℤ :=
  if 0 ≤ q then ratFloor q else -(ratFloor (-q))

structure EstimateResult where
  costUsd : ℚ
  etaSeconds : ℤ
  gpuClass : String
  warnings : List String
deriving Repr, DecidableEq

/-- The render-minutes formula shared by the estimator and the worker:
`(duration/60) × (complexity / gpuSpeedFactor)` (pricing.py line 56). -/
def derived_render_minutes (S : Settings) (m : Manifest) (preset : String) : ℚ :=
  (m.durationSeconds / 60) *
    (compute_complexity m / dictGet S.gpu_speed_factor (choose_gpu_class m preset) 1)

/-- Embeds `estimate_cost` (pricing.py lines 50-76). -/
def estimate_cost (S : Settings) (m : Manifest) (preset : String)
    (bundle_size_bytes : ℤ) (custom_options : Option CustomOptions) : EstimateResult :=
  let gpu_class := choose_gpu_class m preset
  let complexity := compute_complexity m
  let duration_seconds := m.durationSeconds
  let speed_factor := dictGet S.gpu_speed_factor gpu_class 1
  let render_minutes := (duration_seconds / 60) * (complexity / speed_factor)
  let rate := dictGet S.gpu_rate_per_minute gpu_class 1
  let output_gb := estimate_output_size_gb duration_seconds preset custom_options
  let bundle_gb := (bundle_size_bytes : ℚ) / (1024 ^ 3)
  let storage_hours := pymax 1 (render_minutes / 60)
  let storage_cost := (bundle_gb + output_gb) * S.storage_rate_per_gb_hour * storage_hours
  let transfer_cost := output_gb * S.transfer_rate_per_gb
  let render_cost := render_minutes * rate
  let total := pymax S.min_job_cost_usd (render_cost + storage_cost + transfer_cost)
  let upload_seconds := ((bundle_size_bytes : ℚ) * 8) / (S.upload_mbps * 1000000)
  let eta_seconds := pyInt (render_minutes * 60 + upload_seconds + 120)
  let w1 : List String := if 5 < bundle_gb then ["Large bundle; upload may take longer."] else []
  let w2 : List String := if 5/2 ≤ complexity then ["Complex composition; expect longer render time."] else []
  { costUsd := round2 total, etaSeconds := eta_seconds, gpuClass := gpu_class,
    warnings := w1 ++ w2 }

/-- Embeds `compute_actual_cost` (pricing.py lines 79-98): the same cost
formula with the measured `render_minutes` substituted. -/
def compute_actual_cost (S : Settings) (m : Manifest) (preset : String)
    (bundle_size_bytes : ℤ) (render_minutes : ℚ)
    (custom_options : Option CustomOptions) : ℚ :=
  let gpu_class := choose_gpu_class m preset
  let rate := dictGet S.gpu_rate_per_minute gpu_class 1
  let render_cost := render_minutes * rate
  let duration_seconds := m.durationSeconds
  let output_gb := estimate_output_size_gb duration_seconds preset custom_options
  let bundle_gb := (bundle_size_bytes : ℚ) / (1024 ^ 3)
  let storage_hours := pymax 1 (render_minutes / 60)
  let storage_cost := (bundle_gb + output_gb) * S.storage_rate_per_gb_hour * storage_hours
  let transfer_cost := output_gb * S.transfer_rate_per_gb
  let total := pymax S.min_job_cost_usd (render_cost + storage_cost + transfer_cost)
  round2 total

/-! ## Job rows and cache rows (src/cloudexport/models.py) -/

/-- One row of the `jobs` table (models.py lines 26-58).  `project_hash`
and the timestamp columns are omitted (no claim depends on them); column
defaults follow the model declarations. -/
structure Job where
  id : String
  user_id : String
  status : String := "CREATED"
  preset : String
  gpu_class : String
  manifest : Manifest
  custom_options : Option CustomOptions := none
  manifest_hash : String
  bundle_key : String
  bundle_sha256 : String
  bundle_size_bytes : ℤ
  result_key : Option String := none
  output_name : String
  notification_email : Option String := none
  cost_estimate_usd : ℚ
  cost_final_usd : Option ℚ := none
  eta_seconds : ℤ
  progress_percent : ℚ := 0
  attempts : ℕ := 0
  max_attempts : ℕ := 3
  error_message : Option String := none
  cancel_requested : Bool := false
  cache_hit : Bool := false
deriving Repr, DecidableEq

/-- One row of the `cache_entries` table (models.py lines 87-95). -/
structure CacheRow where
  manifest_hash : String
  preset : String
  result_key : String
  output_name : String
deriving Repr, DecidableEq

/-! ## Worker loop (src/worker/worker.py) -/

/-- One message published on the job's progress channel
(`publish_progress`, src/cloudexport/queue.py lines 38-41; the payload the
worker sends in `update_job`, worker.py lines 55-60).  The server-assigned
timestamp is omitted. -/
structure Progress where
  jobId : String
  status : String
  progressPercent : ℚ
  errorMessage : Option String
deriving Repr, DecidableEq

/-- The `STATUS_PROGRESS` dict (worker.py lines 22-31). -/
def STATUS_PROGRESS : List (String × ℚ) :=
  [("DOWNLOADING", 10), ("VALIDATING", 20), ("RENDERING", 60), ("PACKAGING", 85),
   ("UPLOADING", 92), ("COMPLETED", 100), ("FAILED", 0), ("CANCELLED", 0)]

/-- The mutable state a single worker invocation touches: the job row, the
ledger, this worker's `queue:{gpu_class}` list (head = most recently
pushed, as redis `lpush` pushes to the head), the `cache_entries` table,
and the progress messages published so far (in publication order). -/
structure WorkerState where
  job : Job
  ledger : Ledger
  queue : List String
  cache : List CacheRow
  published : List Progress
deriving Repr, DecidableEq

/-- Embeds `update_job` (worker.py lines 42-60): set status, resolve the
progress default via `STATUS_PROGRESS.get(status, job.progress_percent)`,
record the error message if one is given, commit, and publish a progress
message carrying the job's current status/progress/error.  (The JobEvent
insert and the timestamp writes carry no claim-relevant data and are
omitted.) -/
def update_job (s : WorkerState) (status : String) (progress : Option ℚ)
    (error : Option String) : WorkerState :=
  let resolved := progress.getD (dictGet STATUS_PROGRESS status s.job.progress_percent)
  let job := { s.job with
    status := status
    progress_percent := resolved
    error_message := match error with | some e => some e | none => s.job.error_message }
  { s with
    job := job
    published := s.published ++
      [{ jobId := job.id, status := job.status, progressPercent := job.progress_percent,
         errorMessage := job.error_message }] }

/-- The render subprocess's observable behaviour, as consumed by the poll
loop of `run_render` (worker.py lines 86-110): the `PROGRESS:<pct>%`
values parsed from stdout, followed by how the loop ends — normal exit
with code 0, normal exit with a nonzero code, expiry of the wall-clock
timeout, or observation of `cancel_requested`. -/
inductive RenderOutcome
  | completes (reports : List ℚ)
  | rendererFails (reports : List ℚ)
  | timesOut (reports : List ℚ)
  | cancelled (reports : List ℚ)
deriving Repr, DecidableEq

/-- One `PROGRESS:<pct>%` line maps to a RENDERING update with progress
`min(90, 30 + pct × 0.6)` (worker.py line 95). -/
def apply_reports (s : WorkerState) (reports : List ℚ) : WorkerState :=
  reports.foldl
    (fun s pct => update_job s "RENDERING" (some (pymin 90 (30 + pct * (6/10)))) none) s

/-- Embeds `run_render` (worker.py lines 86-110).  Returns the state after
the poll loop together with the message of the raised `RuntimeError`, if
any: `timeout` after marking the job FAILED with error `Render timeout`,
`cancelled` after marking it CANCELLED, `aerender failed` on a nonzero
exit code. -/
def run_render (s : WorkerState) : RenderOutcome → WorkerState × Option String
  | .completes reports => (apply_reports s reports, none)
  | .rendererFails reports => (apply_reports s reports, some "aerender failed")
  | .timesOut reports =>
    let s1 := apply_reports s reports
    (update_job s1 "FAILED" none (some "Render timeout"), some "timeout")
  | .cancelled reports =>
    let s1 := apply_reports s reports
    (update_job s1 "CANCELLED" none none, some "cancelled")

/-- Embeds the `except RuntimeError` handler of `process_job` (worker.py
lines 241-254): `cancelled` only voids the reservation; any other
RuntimeError increments `attempts` and either re-enqueues the job (status
QUEUED, progress 10, `lpush` onto the gpu-class queue — `os.environ.get('GPU_CLASS',
job.gpu_class)` resolves to the job's own class when the env var is unset)
or, with attempts exhausted, marks it FAILED and voids the reservation. -/
def handle_runtime_error (s : WorkerState) (err : String) : WorkerState :=
  if err == "cancelled" then
    { s with ledger := void_reservation s.ledger s.job.id "cancelled" }
  else
    let s := { s with job := { s.job with attempts := s.job.attempts + 1 } }
    if s.job.attempts < s.job.max_attempts then
      let s1 := update_job s "QUEUED" (some 10) none
      { s1 with queue := s1.job.id :: s1.queue }
    else
      let s1 := update_job s "FAILED" none (some err)
      { s1 with ledger := void_reservation s1.ledger s1.job.id "failed" }

/-- Python `Path.with_suffix`: replace the last dot-suffix of the name (or
append the suffix when the name has none). -/
def with_suffix (name suffix : String) : String :=
  let parts := name.splitOn "."
  if parts.length ≤ 1 then name ++ suffix
  else String.intercalate "." parts.dropLast ++ suffix

/-- The output filename produced by `transcode_output` (worker.py lines
113-150): `.mov` for high_quality or a custom prores codec, `.mp4`
otherwise. -/
def transcode_output_name (preset : String) (custom_options : Option CustomOptions)
    (output_name : String) : String :=
  if preset == "high_quality" then with_suffix output_name ".mov"
  else
    let codec :=
      if preset == "custom" then
        match custom_options with
        | some c => c.codec.getD "h264"
        | none => "h264"
      else "h264"
    if codec == "prores" then with_suffix output_name ".mov"
    else with_suffix output_name ".mp4"

/-- The tail of a successful `process_job` run (worker.py lines 197-232),
entered after the render loop returns without raising: PACKAGING update,
transcode (which renames the output), UPLOADING update, result-key
computation, assignment of `result_key` and `cost_final_usd`, the
COMPLETED update with progress 100, credit settlement at the actual cost,
and the unguarded `CacheEntry` insert.  `minutes` is the measured billed
minutes `max(1, (now - started_at)/60)` (line 211); the usage-aggregate
update and the notification email carry no claim-relevant state. -/
def worker_success (S : Settings) (s : WorkerState) (minutes : ℚ) : WorkerState :=
  let s := update_job s "PACKAGING" none none
  let out_name := transcode_output_name s.job.preset s.job.custom_options s.job.output_name
  let s := { s with job := { s.job with output_name := out_name } }
  let s := update_job s "UPLOADING" none none
  let result_key := "results/" ++ s.job.user_id ++ "/" ++ s.job.id ++ "/" ++ out_name
  let actual_cost := compute_actual_cost S s.job.manifest s.job.preset
    s.job.bundle_size_bytes minutes s.job.custom_options
  let s := { s with job := { s.job with
    result_key := some result_key
    cost_final_usd := some actual_cost } }
  let s := update_job s "COMPLETED" (some 100) none
  let s := { s with ledger := settle_job_credits s.ledger s.job.id actual_cost }
  { s with cache := s.cache ++
      [{ manifest_hash := s.job.manifest_hash, preset := s.job.preset,
         result_key := result_key, output_name := out_name }] }

/-- Where a `process_job` run turns fatal before or during rendering, as
an explicit input (replacing filesystem and subprocess behaviour): a
checksum mismatch during DOWNLOADING, the three bundle-validation
RuntimeErrors raised after the VALIDATING update, a non-RuntimeError
exception, or the render subprocess outcome. -/
inductive JobRun
  | checksumMismatch
  | manifestMissing
  | manifestErrors (msg : String)
  | projectMissing
  | unhandled (msg : String)
  | render (r : RenderOutcome)
deriving Repr, DecidableEq

/-- The database rows a worker invocation reads and writes: the job row
for the popped id (`none` = row missing), the ledger, the gpu-class work
queue and the cache table. -/
structure DbState where
  job : Option Job
  ledger : Ledger
  queue : List String
  cache : List CacheRow
deriving Repr, DecidableEq

/-- Embeds `process_job` (worker.py lines 153-261).  If the job row is
missing the worker returns immediately; otherwise — with NO check of the
job's status (lines 155-158 guard only on existence) — it walks the
pipeline: DOWNLOADING, the checksum check, VALIDATING, the bundle checks,
RENDERING, `run_render`, and on success the `worker_success` tail.  All
RuntimeErrors funnel into `handle_runtime_error`; any other exception
marks the job FAILED and voids the reservation (lines 255-257).  Returns
the final database state and the published progress messages. -/
def process_job (S : Settings) (db : DbState) (run : JobRun) (minutes : ℚ) :
    DbState × List Progress :=
  match db.job with
  | none => (db, [])
  | some job =>
    let s0 : WorkerState :=
      { job := job, ledger := db.ledger, queue := db.queue, cache := db.cache, published := [] }
    let s1 := update_job s0 "DOWNLOADING" none none
    let final :=
      match run with
      | .checksumMismatch => handle_runtime_error s1 "Bundle checksum mismatch"
      | .manifestMissing =>
        handle_runtime_error (update_job s1 "VALIDATING" none none) "Manifest missing from bundle"
      | .manifestErrors msg =>
        handle_runtime_error (update_job s1 "VALIDATING" none none) msg
      | .projectMissing =>
        handle_runtime_error (update_job s1 "VALIDATING" none none) "Project file missing in bundle"
      | .unhandled msg =>
        let s2 := update_job s1 "FAILED" none (some msg)
        { s2 with ledger := void_reservation s2.ledger s2.job.id "failed" }
      | .render r =>
        let s2 := update_job s1 "VALIDATING" none none
        let s3 := update_job s2 "RENDERING" none none
        let (s4, raised) := run_render s3 r
        match raised with
        | some err => handle_runtime_error s4 err
        | none => worker_success S s4 minutes
    ({ job := some final.job, ledger := final.ledger, queue := final.queue,
       cache := final.cache }, final.published)

/-! ## Job controller (src/backend/app/main.py) -/

/-- The state touched by `cancel_job`: the caller's job row, the ledger,
the job's gpu-class queue, and the progress messages published. -/
structure CtrlState where
  job : Job
  ledger : Ledger
  queue : List String
  published : List Progress
deriving Repr, DecidableEq

/-- Embeds `cancel_job` (main.py lines 301-321), given that the job row
exists and belongs to the caller.  Always sets `cancel_requested`; only
when the status is QUEUED it additionally removes every occurrence of the
id from the queue (redis `lrem` with count 0), transitions the row to
CANCELLED with progress 0, voids the reservation, and publishes a terminal
CANCELLED message (this publish carries no error field). -/
def cancel_job (s : CtrlState) : CtrlState :=
  let job := { s.job with cancel_requested := true }
  if job.status == "QUEUED" then
    { job := { job with status := "CANCELLED", progress_percent := 0 }
      ledger := void_reservation s.ledger job.id "cancelled"
      queue := s.queue.filter (fun j => j ≠ job.id)
      published := s.published ++
        [{ jobId := job.id, status := "CANCELLED", progressPercent := 0, errorMessage := none }] }
  else { s with job := job }

/-- The job row persisted by the cache-hit short-circuit of `create_job`
(main.py lines 183-207): status COMPLETED, progress 100, `cache_hit`,
result key and filename copied from the cache row, and final cost set to
the estimate in the same insert. -/
def mk_cache_hit_job (id user_id preset gpu_class : String) (m : Manifest)
    (custom_options : Option CustomOptions) (manifest_hash bundle_key bundle_sha256 : String)
    (bundle_size_bytes : ℤ) (cache : CacheRow) (notification_email : Option String)
    (cost : ℚ) : Job :=
  { id := id, user_id := user_id, status := "COMPLETED", preset := preset,
    gpu_class := gpu_class, manifest := m, custom_options := custom_options,
    manifest_hash := manifest_hash, bundle_key := bundle_key,
    bundle_sha256 := bundle_sha256, bundle_size_bytes := bundle_size_bytes,
    result_key := some cache.result_key, output_name := cache.output_name,
    notification_email := notification_email, cost_estimate_usd := cost,
    cost_final_usd := some cost, eta_seconds := 0, progress_percent := 100,
    cache_hit := true }

/-- The job row persisted by the normal path of `create_job` (main.py
lines 227-245): status QUEUED, result and final cost unset. -/
def mk_queued_job (id user_id preset gpu_class : String) (m : Manifest)
    (custom_options : Option CustomOptions) (manifest_hash bundle_key bundle_sha256 : String)
    (bundle_size_bytes : ℤ) (output_name : String) (notification_email : Option String)
    (cost : ℚ) (eta : ℤ) : Job :=
  { id := id, user_id := user_id, status := "QUEUED", preset := preset,
    gpu_class := gpu_class, manifest := m, custom_options := custom_options,
    manifest_hash := manifest_hash, bundle_key := bundle_key,
    bundle_sha256 := bundle_sha256, bundle_size_bytes := bundle_size_bytes,
    output_name := output_name, notification_email := notification_email,
    cost_estimate_usd := cost, eta_seconds := eta }

/-- Embeds `job_result` (main.py lines 289-298), given the row looked up
for the caller.  The guard is
`job.status != 'COMPLETED' or not job.result_key`; Python's truthiness
makes both a NULL and an empty-string key falsy.  On success the endpoint
presigns `job.result_key` and returns it with the filename. -/
def job_result (jobOpt : Option Job) : Except (ℕ × String) (String × String) :=
  match jobOpt with
  | none => .error (404, "Job not found")
  | some job =>
    if job.status ≠ "COMPLETED" ∨ job.result_key.getD "" = "" then
      .error (400, "Job not complete")
    else .ok (job.result_key.getD "", job.output_name)

/-- Embeds the ledger-relevant tail of `lemon_webhook` (main.py lines
480-519): once the signature, event-name and required-field checks have
passed (which force a truthy, hence nonempty, external id), the handler
acknowledges immediately if any ledger entry already carries this external
id, and otherwise posts the purchase through `credit_purchase`.  User
lookup/creation touches only the users table and is omitted. -/
def lemon_webhook_post (L : Ledger) (external_id user_id : String) (credits : ℚ) : Ledger :=
  if L.any (fun e => e.external_id == some external_id) then L
  else credit_purchase L user_id credits external_id "lemon"

/-- Number of PURCHASE entries carrying a given external id. -/
def purchaseCount (L : Ledger) (external_id : String) : ℕ :=
  (L.filter (fun e => e.entry_type == "PURCHASE" && e.external_id == some external_id)).length

/-- One worker-state transformation only appends to the published
progress stream (it never reorders or drops already-published messages). -/
def PubExt (s t : WorkerState) : Prop :=
  ∃ more, t.published = s.published ++ more

/-- A list of progress percentages is non-decreasing (the ordering the
spec's monotone-progress invariant asserts for a job's published
sequence). -/
def nonDecreasing : List ℚ → Bool
  | [] => true
  | [_] => true
  | a :: b :: t => if a ≤ b then nonDecreasing (b :: t) else false

/-! ## Concrete scenario data used by the closed theorems -/

/-- A 60 s composition with no effects and no expressions (complexity 1,
GPU class rtx4090). -/
def demoManifest : Manifest := { durationSeconds := 60, effects := [], expressionsCount := 0 }

/-- A queued web-preset job for that manifest (120 MB bundle). -/
def demoJob : Job :=
  { id := "j1", user_id := "u1", status := "QUEUED", preset := "web", gpu_class := "rtx4090",
    manifest := demoManifest, manifest_hash := "h1", bundle_key := "bundles/u1/h1.zip",
    bundle_sha256 := "pending", bundle_size_bytes := 125829120, output_name := "out.mp4",
    cost_estimate_usd := 1, eta_seconds := 200 }

/-- A single posted purchase of $100 for user u1. -/
def purchase100 : LedgerEntry :=
  { user_id := "u1", entry_type := "PURCHASE", status := "posted", amount_usd := 100,
    external_id := some "p1", details := some { reason := "lemon" } }

/-- The RESERVE entry `reserve_credits` appends for user u1, job j1,
amount $10. -/
def reserve10 : LedgerEntry :=
  { user_id := "u1", entry_type := "RESERVE", status := "reserved", amount_usd := -10,
    currency := "USD", job_id := some "j1" }

/-- A live $1 reservation for demoJob. -/
def reserve1 : LedgerEntry :=
  { user_id := "u1", entry_type := "RESERVE", status := "reserved", amount_usd := -1,
    job_id := some "j1" }

/-- Worker-visible database for demoJob: $100 posted, $1 reserved for j1,
empty queue and cache. -/
def demoDb : DbState :=
  { job := some demoJob, ledger := [purchase100, reserve1], queue := [], cache := [] }

/-- Database state after the worker completes demoJob normally. -/
def demoDbAfterFirst : DbState :=
  (process_job defaultSettings demoDb (.render (.completes [])) 1).1

/-- A second job with the same manifest hash and preset as demoJob,
submitted with `allowCache=false` so it reaches the worker. -/
def demoJob2 : Job := { demoJob with id := "j2" }

/-- The $1 reservation for demoJob2. -/
def reserve1b : LedgerEntry := { reserve1 with job_id := some "j2" }

/-- The job row expected after a first-attempt render timeout: re-queued
at progress 10 with one attempt recorded and the transient error message
left in place. -/
def demoJobAfterTimeout : Job :=
  { demoJob with
    status := "QUEUED"
    progress_percent := 10
    attempts := 1
    error_message := some "Render timeout" }

/-- The demoJob row in status CANCELLED (as after a queued-state cancel). -/
def demoJobCancelled : Job := { demoJob with status := "CANCELLED" }

/-- Database state after the worker also completes demoJob2. -/
def demoDbAfterSecond : DbState :=
  (process_job defaultSettings
    { demoDbAfterFirst with
      job := some demoJob2
      ledger := demoDbAfterFirst.ledger ++ [reserve1b] }
    (.render (.completes [])) 1).1

/-- Controller-visible state for cancelling demoJob while it is QUEUED. -/
def demoCtrlState : CtrlState :=
  { job := demoJob
    ledger := [purchase100, reserve1]
    queue := ["j1"]
    published := [] }

/-- A cache row as the worker writes it on completion. -/
def demoCacheRow : CacheRow :=
  { manifest_hash := "h1", preset := "web", result_key := "results/u1/j1/out.mp4",
    output_name := "out.mp4" }

/-- The job row the cache-hit path persists for demoCacheRow. -/
def demoCacheHitJob : Job :=
  mk_cache_hit_job "j9" "u9" "web" "rtx4090" demoManifest none "h1" "bundles/u9/h1.zip"
    "sha" 1 demoCacheRow none 1

/-! ## Shared lemmas -/

theorem statusSum_append (L1 L2 : Ledger) (u st : String) :
    statusSum (L1 ++ L2) u st = statusSum L1 u st + statusSum L2 u st := by
  simp [statusSum, List.filter_append]

theorem find?_updateFirst (p : LedgerEntry → Bool) (f : LedgerEntry → LedgerEntry)
    (L : Ledger) (hf : ∀ e, p e = true → p (f e) = true) :
    (updateFirst p f L).find? p = (L.find? p).map f := by
  induction L with
  | nil => rfl
  | cons e es ih =>
    by_cases h : p e = true
    · rw [updateFirst, if_pos h, List.find?_cons_of_pos _ (hf e h), List.find?_cons_of_pos _ h]
      rfl
    · have h' : p e = false := by simpa using h
      rw [updateFirst, if_neg (by simp [h']), List.find?_cons_of_neg _ (by simp [h']),
        List.find?_cons_of_neg _ (by simp [h']), ih]

theorem isReserveOf_status_update (j : String) (e : LedgerEntry) (st : String)
    (d : Option LedgerDetails) (h : isReserveOf j e = true) :
    isReserveOf j { e with status := st, details := d } = true := by
  simpa [isReserveOf] using h

theorem void_reservation_voids (L : Ledger) (j reason : String) (e : LedgerEntry)
    (hfind : L.find? (isReserveOf j) = some e) (hres : e.status = "reserved") :
    (void_reservation L j reason).find? (isReserveOf j) =
      some { e with status := "voided", details := some { reason := reason } } := by
  simp only [void_reservation, hfind]
  rw [if_neg (by simp [hres])]
  rw [find?_updateFirst _ _ _ (fun x hx => isReserveOf_status_update j x _ _ hx), hfind]
  rfl

theorem pubExt_refl (s : WorkerState) : PubExt s s := ⟨[], by simp⟩

theorem pubExt_trans {a b c : WorkerState} (h1 : PubExt a b) (h2 : PubExt b c) :
    PubExt a c := by
  obtain ⟨t1, ht1⟩ := h1
  obtain ⟨t2, ht2⟩ := h2
  exact ⟨t1 ++ t2, by rw [ht2, ht1, List.append_assoc]⟩

theorem pubExt_update_job (s : WorkerState) (st : String) (p : Option ℚ)
    (e : Option String) : PubExt s (update_job s st p e) :=
  ⟨_, rfl⟩

theorem pubExt_apply_reports (s : WorkerState) (reports : List ℚ) :
    PubExt s (apply_reports s reports) := by
  induction reports generalizing s with
  | nil => exact pubExt_refl s
  | cons p ps ih =>
    have step : apply_reports s (p :: ps) =
        apply_reports (update_job s "RENDERING" (some (pymin 90 (30 + p * (6/10)))) none) ps := by
      simp [apply_reports]
    rw [step]
    exact pubExt_trans (pubExt_update_job s _ _ _) (ih _)

theorem pubExt_run_render (s : WorkerState) (r : RenderOutcome) :
    PubExt s (run_render s r).1 := by
  cases r with
  | completes reports => exact pubExt_apply_reports s reports
  | rendererFails reports => exact pubExt_apply_reports s reports
  | timesOut reports =>
    exact pubExt_trans (pubExt_apply_reports s reports) (pubExt_update_job _ _ _ _)
  | cancelled reports =>
    exact pubExt_trans (pubExt_apply_reports s reports) (pubExt_update_job _ _ _ _)

theorem pubExt_handle_runtime_error (s : WorkerState) (err : String) :
    PubExt s (handle_runtime_error s err) := by
  rw [handle_runtime_error]
  by_cases hc : (err == "cancelled") = true
  · rw [if_pos hc]
    exact ⟨[], by simp⟩
  · rw [if_neg hc]
    by_cases ha : s.job.attempts + 1 < s.job.max_attempts
    · rw [if_pos ha]
      obtain ⟨t, ht⟩ := pubExt_update_job { s with job := { s.job with attempts := s.job.attempts + 1 } }
        "QUEUED" (some 10) none
      exact ⟨t, ht⟩
    · rw [if_neg ha]
      obtain ⟨t, ht⟩ := pubExt_update_job { s with job := { s.job with attempts := s.job.attempts + 1 } }
        "FAILED" none (some err)
      exact ⟨t, ht⟩

theorem pubExt_set_job (s : WorkerState) (j : Job) : PubExt s { s with job := j } :=
  ⟨[], by simp⟩

theorem pubExt_set_ledger (s : WorkerState) (l : Ledger) : PubExt s { s with ledger := l } :=
  ⟨[], by simp⟩

theorem pubExt_set_cache (s : WorkerState) (c : List CacheRow) :
    PubExt s { s with cache := c } :=
  ⟨[], by simp⟩

theorem pubExt_set_queue (s : WorkerState) (q : List String) :
    PubExt s { s with queue := q } :=
  ⟨[], by simp⟩

theorem pubExt_worker_success (S : Settings) (s : WorkerState) (minutes : ℚ) :
    PubExt s (worker_success S s minutes) :=
  pubExt_trans (pubExt_update_job _ _ _ _)
    (pubExt_trans (pubExt_set_job _ _)
      (pubExt_trans (pubExt_update_job _ _ _ _)
        (pubExt_trans (pubExt_set_job _ _)
          (pubExt_trans (pubExt_update_job _ _ _ _)
            (pubExt_trans (pubExt_set_ledger _ _) (pubExt_set_cache _ _))))))

/-! ## Claim theorems -/

/-- C1: the claim states that `reserve(user, job, a)` followed by
`settle(job, c)` with `0 < c ≤ a` changes the posted balance by exactly
`-c` and leaves reserved at 0.  Evaluating the code at the failing input
(posted $100, reserve $10, settle $4): `settle_job_credits` both rewrites
the RESERVE entry to a posted `-4` *and* appends a posted REFUND of `+6`,
so posted becomes $102 — a change of `+2`, not `-4` (reserved is 0 as
claimed).  The refund double-counts: the reservation never debited the
posted balance, so crediting back the unused part overpays the user. -/
theorem reserve_then_settle_overcredits_posted :
    reserve_credits [purchase100] "u1" "j1" 10 = .ok [purchase100, reserve10] ∧
    get_balances (settle_job_credits [purchase100, reserve10] "j1" 4) "u1" =
      { posted_usd := 102, reserved_usd := 0, available_usd := 102 } ∧
    (102 : ℚ) ≠ 100 - 4 := by
  refine ⟨?_, ?_, by norm_num⟩
  · simp [reserve_credits, isReserveOfUser, get_balances, statusSum, purchase100, reserve10,
      mkReserveEntry]
    norm_num
  · simp [settle_job_credits, isReserveOf, get_balances, statusSum, purchase100, reserve10,
      pyabs, pymax, pymin, updateFirst]
    norm_num
    simp

/-- C2 (counterexample): the claim states the reserved balance equals the
absolute value of the sum of reserved-status amounts and is therefore
non-negative.  With a posted $100 purchase and one live $1 reservation,
`get_balances` returns `reserved_usd = -1` — the raw signed sum, not its
absolute value `1`, and it is negative while the reservation is live. -/
theorem reserved_balance_negative_while_live :
    (get_balances [purchase100, reserve1] "u1").reserved_usd = -1 ∧
    pyabs (statusSum [purchase100, reserve1] "u1" "reserved") = 1 ∧
    (-1 : ℚ) ≠ 1 ∧ ¬ (0 : ℚ) ≤ -1 := by
  refine ⟨?_, ?_, by norm_num, by norm_num⟩
  · simp [get_balances, statusSum, purchase100, reserve1]
  · simp [statusSum, purchase100, reserve1, pyabs]

/-- C2 (amended): the reserved balance returned by `get_balances` is the
raw signed sum of amounts over entries with status `reserved` — not its
absolute value — so while a reservation of amount `a > 0` is live the
reserved balance is `-a`, which is non-positive, not non-negative.  The
theorem states this for any successful reservation: `reserve_credits`
appends the `-a` entry and the reserved balance drops by `a`. -/
theorem reserved_balance_is_signed_sum (L : Ledger) (u j : String) (a : ℚ)
    (ha : 0 < a) (hnone : L.find? (isReserveOfUser u j) = none)
    (hav : a ≤ (get_balances L u).available_usd) :
    reserve_credits L u j a = .ok (L ++ [mkReserveEntry u j a]) ∧
    (get_balances (L ++ [mkReserveEntry u j a]) u).reserved_usd =
      statusSum L u "reserved" - a := by
  constructor
  · rw [reserve_credits, if_neg (by exact not_le.mpr ha), hnone]
    rw [if_neg (not_lt.mpr hav)]
  · show statusSum (L ++ [mkReserveEntry u j a]) u "reserved" = _
    rw [statusSum_append]
    have : statusSum [mkReserveEntry u j a] u "reserved" = -a := by
      simp [statusSum, mkReserveEntry]
    rw [this]
    ring

/-- Witness for C2's amended theorem at a concrete input: posted $100,
reserve $5 for job j1. -/
theorem reserved_balance_is_signed_sum_witness :
    reserve_credits [purchase100] "u1" "j1" 5 =
      .ok ([purchase100] ++ [mkReserveEntry "u1" "j1" 5]) ∧
    (get_balances ([purchase100] ++ [mkReserveEntry "u1" "j1" 5]) "u1").reserved_usd =
      statusSum [purchase100] "u1" "reserved" - 5 :=
  reserved_balance_is_signed_sum [purchase100] "u1" "j1" 5 (by norm_num)
    (by simp [isReserveOfUser, purchase100])
    (by simp [get_balances, statusSum, purchase100]; norm_num)

/-- C9: the worker's actual-cost function, applied with render minutes
equal to the estimator's derived value
`(duration/60) × complexity / gpuSpeedFactor`, returns exactly the
estimator's cost.  The two functions share the GPU-class choice, the rate
lookup, the output-size and bundle-size terms, the storage-hours clamp,
the minimum-cost clamp and the final rounding, differing only in where
the render-minutes value comes from. -/
theorem actual_cost_at_derived_minutes_eq_estimate (S : Settings) (m : Manifest)
    (preset : String) (bundle_size_bytes : ℤ) (custom_options : Option CustomOptions) :
    compute_actual_cost S m preset bundle_size_bytes
      (derived_render_minutes S m preset) custom_options =
    (estimate_cost S m preset bundle_size_bytes custom_options).costUsd := rfl

/-- C7: however many times the payment webhook fires with the same
external id, the ledger holds at most one PURCHASE entry with that id,
and after the first delivery further deliveries leave the ledger — hence
the posted balance — unchanged.  `lemon_webhook_post` embeds the handler
from its duplicate check onward; iteration models repeated webhook
delivery starting from a ledger not yet containing the id. -/
theorem webhook_purchase_idempotent (L : Ledger) (ext u : String) (c : ℚ)
    (h0 : purchaseCount L ext = 0) :
    (∀ n, purchaseCount ((fun l => lemon_webhook_post l ext u c)^[n] L) ext ≤ 1) ∧
    (∀ n, 1 ≤ n →
      (fun l => lemon_webhook_post l ext u c)^[n] L = lemon_webhook_post L ext u c) := by
  have hfix : ∀ M : Ledger, M.any (fun e => e.external_id == some ext) = true →
      lemon_webhook_post M ext u c = M := by
    intro M h
    rw [lemon_webhook_post, if_pos h]
  have hany : ∀ M : Ledger,
      (lemon_webhook_post M ext u c).any (fun e => e.external_id == some ext) = true := by
    intro M
    rw [lemon_webhook_post]
    by_cases h : M.any (fun e => e.external_id == some ext) = true
    · rw [if_pos h]
      exact h
    · have hf : M.any (fun e => e.external_id == some ext) = false := by simpa using h
      rw [if_neg (by simp [hf]), credit_purchase, if_neg (by simp [hf])]
      simp
  have hidem : ∀ M : Ledger,
      lemon_webhook_post (lemon_webhook_post M ext u c) ext u c =
        lemon_webhook_post M ext u c :=
    fun M => hfix _ (hany M)
  have hiter : ∀ n, 1 ≤ n →
      (fun l => lemon_webhook_post l ext u c)^[n] L = lemon_webhook_post L ext u c := by
    intro n hn
    induction n with
    | zero => omega
    | succ k ih =>
      rcases Nat.eq_zero_or_pos k with h0k | hpos
      · subst h0k
        simp
      · rw [Function.iterate_succ_apply', ih hpos]
        exact hidem L
  have hcount : ∀ M : Ledger,
      purchaseCount (lemon_webhook_post M ext u c) ext ≤ purchaseCount M ext + 1 := by
    intro M
    rw [lemon_webhook_post]
    by_cases h : M.any (fun e => e.external_id == some ext) = true
    · rw [if_pos h]
      omega
    · have hf : M.any (fun e => e.external_id == some ext) = false := by simpa using h
      rw [if_neg (by simp [hf]), credit_purchase, if_neg (by simp [hf])]
      simp [purchaseCount, List.filter_append]
  refine ⟨?_, hiter⟩
  intro n
  rcases Nat.eq_zero_or_pos n with h0n | hpos
  · subst h0n
    simp [h0]
  · rw [hiter n hpos]
    have := hcount L
    omega

/-- Witness for C7 at a concrete input: three deliveries of external id
`evt-1` for $10 starting from an empty ledger leave at most one PURCHASE
entry. -/
theorem webhook_purchase_idempotent_witness :
    purchaseCount ((fun l => lemon_webhook_post l "evt-1" "u1" 10)^[3] []) "evt-1" ≤ 1 :=
  (webhook_purchase_idempotent [] "evt-1" "u1" 10 rfl).1 3

/-- C3: the claim states a render timeout ends the job in terminal FAILED
with error `Render timeout`, voids the RESERVE entry, and does not
re-enqueue.  Evaluating the code on a first-attempt job whose render times
out: `run_render` does mark the job FAILED with that error, but then
raises `RuntimeError('timeout')`, which the `except RuntimeError` handler
treats as a retryable failure — the job ends in status QUEUED at progress
10 with attempts 1, its id is pushed back onto the gpu-class queue, and
the RESERVE entry is left in status `reserved`, not voided.  The
published trace shows the transient FAILED followed by QUEUED. -/
theorem render_timeout_requeues_job :
    (process_job defaultSettings demoDb (.render (.timesOut [])) 1).1 =
      { job := some demoJobAfterTimeout, ledger := [purchase100, reserve1],
        queue := ["j1"], cache := [] } ∧
    (process_job defaultSettings demoDb (.render (.timesOut [])) 1).2.map
        (fun p => (p.status, p.progressPercent)) =
      [("DOWNLOADING", 10), ("VALIDATING", 20), ("RENDERING", 60), ("FAILED", 0),
       ("QUEUED", 10)] ∧
    reserve1.status = "reserved" := by
  refine ⟨by decide, by decide, rfl⟩

/-- C4: the claim states at most one CacheEntry row exists per
`(manifest_hash, preset)` and that a unique-violation on insert is
swallowed.  The `cache_entries` table declares no unique constraint on
that pair (unlike `credit_ledger`, which declares both of its documented
constraints in the same file), and the worker's insert is unguarded:
completing a second job with the same manifest hash and preset simply
inserts a second row — after demoJob and demoJob2 both complete, two rows
carry `("h1", "web")`. -/
theorem completed_jobs_duplicate_cache_rows :
    cache_entries_unique_constraints = [] ∧
    (demoDbAfterSecond.cache.filter
      (fun e => e.manifest_hash == "h1" && e.preset == "web")).length = 2 ∧
    ¬ ((demoDbAfterSecond.cache.filter
      (fun e => e.manifest_hash == "h1" && e.preset == "web")).length ≤ 1) := by
  refine ⟨rfl, by decide, by decide⟩

/-- C5 (counterexample): the claim states the worker processes a popped
job only when its status is QUEUED and skips it otherwise without
changing it.  Evaluating `process_job` on a job whose row is in status
CANCELLED: the worker has no status check, walks the whole pipeline,
publishes seven progress messages, and leaves the job COMPLETED. -/
theorem worker_processes_cancelled_job :
    ((process_job defaultSettings { demoDb with job := some demoJobCancelled }
        (.render (.completes [])) 1).1.job.map Job.status) = some "COMPLETED" ∧
    ((process_job defaultSettings { demoDb with job := some demoJobCancelled }
        (.render (.completes [])) 1).2).length = 6 ∧
    "COMPLETED" ≠ "CANCELLED" := by
  refine ⟨by decide, by decide, by decide⟩

/-- C5 (amended): the worker skips a popped job id only when the job row
is missing — `process_job` guards on existence alone, with no status
check — and for any existing job row, whatever its status, it starts
processing: the first published message is the DOWNLOADING transition. -/
theorem worker_skips_only_missing_jobs :
    (∀ (S : Settings) (l : Ledger) (q : List String) (c : List CacheRow)
       (run : JobRun) (minutes : ℚ),
      process_job S { job := none, ledger := l, queue := q, cache := c } run minutes =
        ({ job := none, ledger := l, queue := q, cache := c }, [])) ∧
    (∀ (S : Settings) (job : Job) (l : Ledger) (q : List String) (c : List CacheRow)
       (run : JobRun) (minutes : ℚ),
      ((process_job S { job := some job, ledger := l, queue := q, cache := c }
          run minutes).2.map Progress.status).head? = some "DOWNLOADING") := by
  constructor
  · intro S l q c run minutes
    rfl
  · intro S job l q c run minutes
    have hhead : ∀ t : WorkerState,
        PubExt (update_job
          { job := job
            ledger := l
            queue := q
            cache := c
            published := [] } "DOWNLOADING" none none) t →
        (t.published.map Progress.status).head? = some "DOWNLOADING" := by
      rintro t ⟨more, hmore⟩
      rw [hmore]
      rfl
    cases run with
    | checksumMismatch =>
      exact hhead _ (pubExt_handle_runtime_error _ _)
    | manifestMissing =>
      exact hhead _ (pubExt_trans (pubExt_update_job _ _ _ _) (pubExt_handle_runtime_error _ _))
    | manifestErrors msg =>
      exact hhead _ (pubExt_trans (pubExt_update_job _ _ _ _) (pubExt_handle_runtime_error _ _))
    | projectMissing =>
      exact hhead _ (pubExt_trans (pubExt_update_job _ _ _ _) (pubExt_handle_runtime_error _ _))
    | unhandled msg =>
      exact hhead _ (pubExt_update_job _ _ _ _)
    | render r =>
      cases r with
      | completes reports =>
        exact hhead _ (pubExt_trans (pubExt_update_job _ _ _ _)
          (pubExt_trans (pubExt_update_job _ _ _ _)
            (pubExt_trans (pubExt_apply_reports _ _) (pubExt_worker_success _ _ _))))
      | rendererFails reports =>
        exact hhead _ (pubExt_trans (pubExt_update_job _ _ _ _)
          (pubExt_trans (pubExt_update_job _ _ _ _)
            (pubExt_trans (pubExt_apply_reports _ _) (pubExt_handle_runtime_error _ _))))
      | timesOut reports =>
        exact hhead _ (pubExt_trans (pubExt_update_job _ _ _ _)
          (pubExt_trans (pubExt_update_job _ _ _ _)
            (pubExt_trans (pubExt_apply_reports _ _)
              (pubExt_trans (pubExt_update_job _ _ _ _) (pubExt_handle_runtime_error _ _)))))
      | cancelled reports =>
        exact hhead _ (pubExt_trans (pubExt_update_job _ _ _ _)
          (pubExt_trans (pubExt_update_job _ _ _ _)
            (pubExt_trans (pubExt_apply_reports _ _)
              (pubExt_trans (pubExt_update_job _ _ _ _) (pubExt_handle_runtime_error _ _)))))

/-- C6: the claim states the published progress sequence of a single job
is non-decreasing until the terminal event.  On a successful run whose
renderer first reports `PROGRESS:10%`, the worker publishes 60 for the
initial RENDERING transition (the `STATUS_PROGRESS` dict) and then 36 for
the report (the `30 + pct×0.6` mapping) — the sequence decreases.  The
terminal event does carry progress 100, as the claim says. -/
theorem progress_trace_decreases_after_rendering_start :
    (process_job defaultSettings demoDb (.render (.completes [10])) 1).2.map
        Progress.progressPercent = [10, 20, 60, 36, 85, 92, 100] ∧
    nonDecreasing [10, 20, 60, 36, 85, 92, 100] = false ∧
    ([10, 20, 60, 36, 85, 92, 100] : List ℚ).getLast? = some 100 := by
  refine ⟨?_, by decide, by decide⟩
  simp [process_job, update_job, apply_reports, run_render, worker_success, dictGet,
    STATUS_PROGRESS, demoDb, demoJob, pymin]
  norm_num

/-- C8: `cancel_job` always sets the cancel-requested flag; exactly when
the job's status is QUEUED at that moment it additionally removes the id
from the gpu-class queue, transitions the row to CANCELLED at progress 0,
voids a live RESERVE entry, and publishes a terminal CANCELLED message;
for any other status nothing but the flag changes. -/
theorem cancel_job_contract (s : CtrlState) :
    (cancel_job s).job.cancel_requested = true ∧
    (s.job.status = "QUEUED" →
      (cancel_job s).job.status = "CANCELLED" ∧
      (cancel_job s).job.progress_percent = 0 ∧
      (cancel_job s).queue = s.queue.filter (fun j => j ≠ s.job.id) ∧
      (cancel_job s).ledger = void_reservation s.ledger s.job.id "cancelled" ∧
      (∀ e, s.ledger.find? (isReserveOf s.job.id) = some e → e.status = "reserved" →
        (cancel_job s).ledger.find? (isReserveOf s.job.id) =
          some { e with status := "voided", details := some { reason := "cancelled" } }) ∧
      (cancel_job s).published = s.published ++
        [{ jobId := s.job.id, status := "CANCELLED", progressPercent := 0,
           errorMessage := none }]) ∧
    (s.job.status ≠ "QUEUED" →
      (cancel_job s).job = { s.job with cancel_requested := true } ∧
      (cancel_job s).queue = s.queue ∧
      (cancel_job s).ledger = s.ledger ∧
      (cancel_job s).published = s.published) := by
  by_cases h : s.job.status = "QUEUED"
  · refine ⟨?_, fun _ => ⟨?_, ?_, ?_, ?_, ?_, ?_⟩, fun hne => absurd h hne⟩
    · simp [cancel_job, h]
    · simp [cancel_job, h]
    · simp [cancel_job, h]
    · simp [cancel_job, h]
    · simp [cancel_job, h]
    · intro e hfind hres
      have : (cancel_job s).ledger = void_reservation s.ledger s.job.id "cancelled" := by
        simp [cancel_job, h]
      rw [this]
      exact void_reservation_voids _ _ _ _ hfind hres
    · simp [cancel_job, h]
  · refine ⟨?_, fun hq => absurd hq h, fun _ => ⟨?_, ?_, ?_, ?_⟩⟩ <;>
      simp [cancel_job, h]

/-- Witness for C8 at a concrete input: cancelling demoJob (status QUEUED,
one queue entry, one live reservation) sets the flag and reaches
CANCELLED. -/
theorem cancel_job_contract_witness :
    (cancel_job demoCtrlState).job.cancel_requested = true ∧
    (cancel_job demoCtrlState).job.status = "CANCELLED" := by
  have h := cancel_job_contract demoCtrlState
  exact ⟨h.1, (h.2.1 rfl).1⟩

theorem apply_reports_status (s : WorkerState) (reports : List ℚ)
    (h : s.job.status = "RENDERING") :
    (apply_reports s reports).job.status = "RENDERING" := by
  induction reports generalizing s with
  | nil => simpa [apply_reports] using h
  | cons p ps ih =>
    have step : apply_reports s (p :: ps) =
        apply_reports (update_job s "RENDERING" (some (pymin 90 (30 + p * (6/10)))) none) ps := by
      simp [apply_reports]
    rw [step]
    exact ih _ rfl

theorem handle_runtime_error_status (s : WorkerState) (err : String) :
    (handle_runtime_error s err).job.status = s.job.status ∨
    (handle_runtime_error s err).job.status = "QUEUED" ∨
    (handle_runtime_error s err).job.status = "FAILED" := by
  rw [handle_runtime_error]
  by_cases hc : (err == "cancelled") = true
  · rw [if_pos hc]
    left
    rfl
  · rw [if_neg hc]
    by_cases ha : s.job.attempts + 1 < s.job.max_attempts
    · rw [if_pos ha]
      right
      left
      rfl
    · rw [if_neg ha]
      right
      right
      rfl

theorem handle_runtime_error_not_completed (s : WorkerState) (err : String)
    (hs : s.job.status ≠ "COMPLETED") :
    (handle_runtime_error s err).job.status ≠ "COMPLETED" := by
  rcases handle_runtime_error_status s err with h | h | h <;> rw [h]
  · exact hs
  · simp
  · simp

theorem worker_success_fields (S : Settings) (s : WorkerState) (minutes : ℚ) :
    (worker_success S s minutes).job.status = "COMPLETED" ∧
    (worker_success S s minutes).job.result_key =
      some ("results/" ++ s.job.user_id ++ "/" ++ s.job.id ++ "/" ++
        transcode_output_name s.job.preset s.job.custom_options s.job.output_name) ∧
    (worker_success S s minutes).job.cost_final_usd =
      some (compute_actual_cost S s.job.manifest s.job.preset s.job.bundle_size_bytes
        minutes s.job.custom_options) :=
  ⟨rfl, rfl, rfl⟩

theorem results_key_ne_empty (u i n : String) :
    ("results/" ++ u ++ "/" ++ i ++ "/" ++ n) ≠ "" := by
  intro h
  have hlen := congrArg String.length h
  simp [String.length_append] at hlen
  exact absurd hlen.1.1.1.1.1 (by decide)

/-- C10: every job that ends COMPLETED carries a non-null, non-empty
result key and a non-null final cost — the worker sets both fields
together with the COMPLETED transition, and the controller's cache-hit
path persists them in the same insert — so `job_result`'s extra
`result_key` truthiness check never rejects a COMPLETED job. -/
theorem completed_jobs_have_result :
    (∀ (S : Settings) (db : DbState) (run : JobRun) (minutes : ℚ) (j : Job),
      (process_job S db run minutes).1.job = some j → j.status = "COMPLETED" →
      (∃ k, j.result_key = some k ∧ k ≠ "") ∧ j.cost_final_usd.isSome = true) ∧
    (∀ (id user_id preset gpu_class : String) (m : Manifest) (co : Option CustomOptions)
       (mh bk bsha : String) (sz : ℤ) (cache : CacheRow) (nmail : Option String) (cost : ℚ),
      cache.result_key ≠ "" →
      (mk_cache_hit_job id user_id preset gpu_class m co mh bk bsha sz cache nmail
          cost).status = "COMPLETED" ∧
      (∃ k, (mk_cache_hit_job id user_id preset gpu_class m co mh bk bsha sz cache nmail
          cost).result_key = some k ∧ k ≠ "") ∧
      (mk_cache_hit_job id user_id preset gpu_class m co mh bk bsha sz cache nmail
          cost).cost_final_usd = some cost) ∧
    (∀ (id user_id preset gpu_class : String) (m : Manifest) (co : Option CustomOptions)
       (mh bk bsha : String) (sz : ℤ) (oname : String) (nmail : Option String)
       (cost : ℚ) (eta : ℤ),
      (mk_queued_job id user_id preset gpu_class m co mh bk bsha sz oname nmail
          cost eta).status = "QUEUED") ∧
    (∀ j : Job, j.status = "COMPLETED" → (∃ k, j.result_key = some k ∧ k ≠ "") →
      job_result (some j) = .ok (j.result_key.getD "", j.output_name)) := by
  refine ⟨?_, ?_, ?_, ?_⟩
  · intro S db run minutes j hj hstat
    rcases db with ⟨jobOpt, l, q, c⟩
    cases jobOpt with
    | none => simp [process_job] at hj
    | some job =>
      cases run with
      | checksumMismatch =>
        simp only [process_job, Option.some.injEq] at hj
        exact absurd (hj ▸ hstat) (handle_runtime_error_not_completed _ _ (by simp [update_job]))
      | manifestMissing =>
        simp only [process_job, Option.some.injEq] at hj
        exact absurd (hj ▸ hstat) (handle_runtime_error_not_completed _ _ (by simp [update_job]))
      | manifestErrors msg =>
        simp only [process_job, Option.some.injEq] at hj
        exact absurd (hj ▸ hstat) (handle_runtime_error_not_completed _ _ (by simp [update_job]))
      | projectMissing =>
        simp only [process_job, Option.some.injEq] at hj
        exact absurd (hj ▸ hstat) (handle_runtime_error_not_completed _ _ (by simp [update_job]))
      | unhandled msg =>
        simp only [process_job, Option.some.injEq] at hj
        rw [← hj] at hstat
        simp [update_job] at hstat
      | render r =>
        cases r with
        | completes reports =>
          simp only [process_job, run_render, Option.some.injEq] at hj
          rw [← hj]
          refine ⟨⟨_, (worker_success_fields _ _ _).2.1, results_key_ne_empty _ _ _⟩, ?_⟩
          rw [(worker_success_fields _ _ _).2.2]
          rfl
        | rendererFails reports =>
          simp only [process_job, run_render, Option.some.injEq] at hj
          refine absurd (hj ▸ hstat) (handle_runtime_error_not_completed _ _ ?_)
          rw [apply_reports_status _ _ rfl]
          simp
        | timesOut reports =>
          simp only [process_job, run_render, Option.some.injEq] at hj
          refine absurd (hj ▸ hstat) (handle_runtime_error_not_completed _ _ ?_)
          simp [update_job]
        | cancelled reports =>
          simp only [process_job, run_render, Option.some.injEq] at hj
          refine absurd (hj ▸ hstat) (handle_runtime_error_not_completed _ _ ?_)
          simp [update_job]
  · intro id user_id preset gpu_class m co mh bk bsha sz cache nmail cost hk
    exact ⟨rfl, ⟨cache.result_key, rfl, hk⟩, rfl⟩
  · intro id user_id preset gpu_class m co mh bk bsha sz oname nmail cost eta
    rfl
  · rintro j hstat ⟨k, hk, hkne⟩
    have hnc : ¬ (j.status ≠ "COMPLETED" ∨ j.result_key.getD "" = "") := by
      rw [not_or]
      exact ⟨by simp [hstat], by simp [hk, hkne]⟩
    rw [job_result, if_neg hnc]

/-- Witness for C10 at a concrete input: the cache-hit job built from
demoCacheRow is COMPLETED with both fields set, and `job_result` accepts
it. -/
theorem completed_jobs_have_result_witness :
    job_result (some demoCacheHitJob) =
      .ok (demoCacheHitJob.result_key.getD "", demoCacheHitJob.output_name) := by
  have h := completed_jobs_have_result
  have h1 := h.2.1 "j9" "u9" "web" "rtx4090" demoManifest none "h1" "bundles/u9/h1.zip"
    "sha" 1 demoCacheRow none 1 (by decide)
  exact h.2.2.2 demoCacheHitJob h1.1 h1.2.1

end CloudExport
